import Mathlib

/-!
Verification of the TaskFlow AI heuristic core against its specification.

The development shallowly embeds the arithmetic heuristics of
`taskflow_ai/ai/pipeline.py`, `taskflow_ai/ai/scheduler.py` and
`taskflow_ai/taskflow_ai/api/ai_predictions.py`:

* Python floats are modelled as exact rationals (`ℚ`).  Every constant in
  the source is a short decimal, and on every value reachable in these
  formulas the binary-float computation agrees with exact rational
  arithmetic at the precision the results are compared at.
* Python strings are modelled as `String` / `List Char`; the substring
  operator `in` is `containsSub`; `str.lower()` is `Char.toLower` mapped
  over the characters.
* `int(x)` (truncation toward zero) is `pyTrunc`; `round(x, 1)` is
  `pyRound1` (round half up; no value reachable in these formulas lands on
  a half-tie of the tenths digit, where Python's float rounding could
  differ).
* Python's builtin `hash` (a fixed but unspecified function of a string)
  and the seeded `random.randint(-10, 15)` draw (a fixed function of the
  seed) are universally quantified parameters `pyHash` and `rngVar`.
* Python's stable `list.sort` is `List.insertionSort` with the (total,
  reflexive) key ordering; Mathlib's `insertionSort` inserts each earlier
  element in front of later key-equal elements, which is exactly the
  stability contract of `list.sort`.
-/

/-! ### Python string and number primitives -/

/-- Characters of a Python string after `str.lower()`. -/
def lowerChars (s : String) : List Char :=
  s.toList.map Char.toLower

/-- Python's substring test `needle in haystack` on character lists. -/
def containsSub (needle : List Char) : List Char → Bool
  | [] => needle.isEmpty
  | c :: cs => needle.isPrefixOf (c :: cs) || containsSub needle cs

/-- Python `int(q)` on a float value: truncation toward zero. -/
def pyTrunc (q : ℚ) : ℤ :=
  if q < 0 then ⌈q⌉ else ⌊q⌋

/-- Python `round(q, 1)`: round to one decimal place. -/
def pyRound1 (q : ℚ) : ℚ :=
  (round (q * 10) : ℤ) / 10

/-! ### `ai_predictions.py`: keyword-driven prediction formulas -/

/-- High-complexity keyword list of `calculate_complexity_score`
(`"advanced"` really does appear twice in the source and is therefore
counted twice when present). -/
def high_complexity_keywords : List String :=
  ["integration", "migration", "complex", "advanced", "custom", "workflow",
   "api", "development", "system", "advanced", "multi-level", "approval"]

/-- Medium-complexity keyword list of `calculate_complexity_score`. -/
def medium_complexity_keywords : List String :=
  ["configuration", "setup", "implementation", "module", "training",
   "user", "data", "report", "analysis", "business"]

/-- Low-complexity keyword list of `calculate_complexity_score`. -/
def low_complexity_keywords : List String :=
  ["basic", "simple", "update", "call", "meeting", "documentation",
   "review", "discussion", "follow-up"]

/-- Number of entries of a keyword list found in the text.  The source
loops over the list adding a fixed increment per matching entry, i.e. the
increment times this count (duplicate list entries counted per entry). -/
def keywordHits (kws : List String) (text : List Char) : ℕ :=
  (kws.filter (fun kw => containsSub kw.toList text)).length

/-- Lowercased concatenation `(task_subject + " " + task_description).lower()`. -/
def predText (task_subject task_description : List Char) : List Char :=
  (task_subject ++ ' ' :: task_description).map Char.toLower

/-- `calculate_complexity_score(task_subject, task_description)`: base 0.3,
+0.15 per high, +0.08 per medium, +0.03 per low keyword occurrence in the
lowercased concatenation, clamped by `min(1.0, max(0.1, score))`. -/
def calculate_complexity_score (task_subject task_description : List Char) : ℚ :=
  let text := predText task_subject task_description
  let score : ℚ := 0.3
    + 0.15 * (keywordHits high_complexity_keywords text : ℚ)
    + 0.08 * (keywordHits medium_complexity_keywords text : ℚ)
    + 0.03 * (keywordHits low_complexity_keywords text : ℚ)
  min 1.0 (max 0.1 score)

/-- `calculate_predicted_duration(complexity_score, task_subject)`:
first-match-wins base-hours buckets, then a `1 + complexity * 1.5`
multiplier, rounded to one decimal. -/
def calculate_predicted_duration (complexity_score : ℚ) (task_subject : List Char) : ℚ :=
  let base_hours : ℚ :=
    if ["discovery", "call", "meeting"].any (fun k => containsSub k.toList task_subject) then 4
    else if ["training", "session"].any (fun k => containsSub k.toList task_subject) then 16
    else if ["migration", "setup", "installation"].any (fun k => containsSub k.toList task_subject) then 20
    else if ["development", "custom", "workflow"].any (fun k => containsSub k.toList task_subject) then 32
    else 8
  let complexity_multiplier : ℚ := 1 + complexity_score * 1.5
  pyRound1 (base_hours * complexity_multiplier)

/-- `calculate_dynamic_due_date(task_doc, predicted_duration_hours)` as a
day count added to the base date (the task's creation date, else today).
`pyHash` models Python's builtin string hash; `abs(hash(name)) % 10` is
`pyHash name % 10`. -/
def calculate_dynamic_due_date (pyHash : List Char → ℕ) (base_date : ℤ)
    (task_name : String) (predicted_duration_hours : ℚ) : ℤ :=
  let offset_days : ℕ := pyHash task_name.toList % 10 + 1
  let working_days : ℤ := max 1 (pyTrunc (predicted_duration_hours / 8))
  let calendar_days : ℤ := pyTrunc ((working_days : ℚ) * 1.4) + (offset_days : ℤ)
  base_date + calendar_days

/-- Due-date day count as the specification words it: `ceil(duration/8)`
working days, inflated by the 1.4 weekend factor, plus the per-task
offset.  Stated for comparison with `calculate_dynamic_due_date`. -/
def spec_due_date (pyHash : List Char → ℕ) (base_date : ℤ)
    (task_name : String) (predicted_duration_hours : ℚ) : ℤ :=
  let offset_days : ℕ := pyHash task_name.toList % 10 + 1
  let working_days : ℤ := ⌈predicted_duration_hours / 8⌉
  let calendar_days : ℤ := pyTrunc ((working_days : ℚ) * 1.4) + (offset_days : ℤ)
  base_date + calendar_days

/-- `calculate_slip_risk(complexity_score, predicted_duration_hours)`:
base 10, +40·complexity, a duration-tier addend, clamped to [5, 80] by
`min(80, max(5, total))`. -/
def calculate_slip_risk (complexity_score predicted_duration_hours : ℚ) : ℚ :=
  let base_risk : ℚ := 10
  let complexity_risk : ℚ := complexity_score * 40
  let duration_risk : ℚ :=
    if 24 < predicted_duration_hours then 25
    else if 16 < predicted_duration_hours then 15
    else if 8 < predicted_duration_hours then 10
    else 5
  min 80 (max 5 (base_risk + complexity_risk + duration_risk))

/-- Task fields consulted by `calculate_confidence_score` (and the
surrounding prediction entry points).  `none` models a missing/`None`
field; Python truthiness of an empty string is checked explicitly. -/
structure PredTaskDoc where
  name : String
  subject : Option String
  description : Option String
  priority : Option String
  project : Option String
  custom_template_source : Option String

/-- `calculate_confidence_score(task_doc, complexity_score)`: base 0.6
plus data-availability bonuses, −0.1 for very complex tasks, clamped to
[0.3, 1.0] by `min(1.0, max(0.3, base))`. -/
def calculate_confidence_score (task_doc : PredTaskDoc) (complexity_score : ℚ) : ℚ :=
  let description_bonus : ℚ :=
    match task_doc.description with
    | some s => if 50 < s.length then 0.15 else 0
    | none => 0
  let priority_bonus : ℚ :=
    match task_doc.priority with
    | some s => if s ≠ "" then 0.1 else 0
    | none => 0
  let project_bonus : ℚ :=
    match task_doc.project with
    | some s => if s ≠ "" then 0.1 else 0
    | none => 0
  let template_bonus : ℚ :=
    match task_doc.custom_template_source with
    | some s => if s ≠ "" then 0.15 else 0
    | none => 0
  let complexity_penalty : ℚ := if 0.8 < complexity_score then -0.1 else 0
  min 1.0 (max 0.3
    (0.6 + description_bonus + priority_bonus + project_bonus + template_bonus
      + complexity_penalty))

/-- Department keyword table of `calculate_employee_fit_score`
(`dept_bonuses`), in source (and Python 3.7+ dict) insertion order. -/
def dept_bonuses : List (String × List String) :=
  [("Digital Marketing", ["marketing", "seo", "social", "content", "ads"]),
   ("IT", ["development", "technical", "system", "setup", "integration"]),
   ("Accounts", ["financial", "accounting", "bookkeeping", "tax"]),
   ("HR", ["training", "user", "onboarding", "support"]),
   ("Sales", ["lead", "client", "customer", "sales"])]

/-- Department/task alignment bonus of `calculate_employee_fit_score`: the
source loop adds 10 once per table entry whose department name occurs in
the employee's lowercased department and at least one of whose keywords
occurs in the task subject (the inner `break` stops after the first
keyword, so each entry contributes at most 10). -/
def deptAlignmentBonus (emp_department : String) (task_subject : List Char) : ℤ :=
  10 * ((dept_bonuses.filter (fun db =>
    (emp_department != "")
      && containsSub (lowerChars db.1) (lowerChars emp_department)
      && db.2.any (fun kw => containsSub kw.toList task_subject))).length : ℤ)

/-- `calculate_employee_fit_score(employee, task_subject, complexity)`:
base 60, department alignment bonus, complexity adjustment, plus the
variance drawn from `random.randint(-10, 15)` after seeding with
`abs(hash(employee.name + task_subject))`; the seeded draw is a fixed
function of the seed, modelled by the parameter `rngVar`.  The result is
clamped by `max(30, min(95, ·))` and passed through `round(·, 1)`. -/
def calculate_employee_fit_score (pyHash : List Char → ℕ) (rngVar : ℕ → ℤ)
    (employee_name : String) (employee_department : Option String)
    (task_subject : List Char) (complexity : ℚ) : ℚ :=
  let emp_dept : String := employee_department.getD ""
  let base_score : ℤ := 60 + deptAlignmentBonus emp_dept task_subject
    + (if 0.7 < complexity then 15 else if complexity < 0.3 then 5 else 0)
  let variance : ℤ := rngVar (pyHash (employee_name.toList ++ task_subject))
  let final_score : ℤ := max 30 (min 95 (base_score + variance))
  pyRound1 (final_score : ℚ)

/-! ### `pipeline.py`: feature extraction, predictions and the ranker -/

/-- Flat complexity keyword list of `extract_task_features`. -/
def pipeline_complexity_keywords : List String :=
  ["custom", "integration", "api", "complex", "advanced", "migration",
   "workflow", "automation", "report", "dashboard", "multi-company"]

/-- Template fields read by `extract_task_features`. -/
structure TemplateCtx where
  category : String
  ai_complexity_score : Option ℚ
  default_duration_hours : Option ℚ

/-- Project fields read by `extract_task_features`. -/
structure PipeProjectCtx where
  priority : Option String
  customer : Option String

/-- Feature record of `extract_task_features`, restricted to the fields
the predictor and ranker read (`text_length`, `word_count`, the temporal
fields and the bag-of-words embedding are never read by them).  An
`Option` field is `none` when the dictionary key is absent. -/
structure PipelineFeatures where
  text_content : List Char
  complexity_score : ℚ
  project_priority : Option String
  template_category : Option String
  template_complexity : Option ℚ
  default_duration : Option ℚ

/-- `extract_task_features(task)`: text concatenation
`f"{task.subject} {task.description or ''}"`, flat-keyword complexity
score `min(0.3 + 0.1 · hits, 1.0)`, and the project/template context
fields with their `or`-defaults. -/
def extract_task_features (subject : String) (description : Option String)
    (project : Option PipeProjectCtx) (template : Option TemplateCtx) : PipelineFeatures :=
  let text_content : List Char :=
    subject.toList ++ ' ' :: (match description with | some d => d.toList | none => [])
  let hits : ℕ := (pipeline_complexity_keywords.filter
    (fun kw => containsSub (lowerChars kw) (text_content.map Char.toLower))).length
  { text_content := text_content
    complexity_score := min (0.3 + 0.1 * (hits : ℚ)) 1.0
    project_priority := project.map (fun p =>
      match p.priority with | some s => if s = "" then "Medium" else s | none => "Medium")
    template_category := template.map (·.category)
    template_complexity := template.map (fun t =>
      match t.ai_complexity_score with | some q => if q = 0 then 0.5 else q | none => 0.5)
    default_duration := template.map (fun t =>
      match t.default_duration_hours with | some q => if q = 0 then 8 else q | none => 8) }

/-- Duration guard of `get_ai_predictions`: `if not predicted_duration or
predicted_duration <= 0: predicted_duration = 8` (a float is falsy exactly
when it is 0.0, which `<= 0` already covers). -/
def fallback8 (q : ℚ) : ℚ :=
  if q ≤ 0 then 8 else q

/-- `base_duration = features.get("default_duration", 8) or 8`. -/
def pipeline_base_duration (f : PipelineFeatures) : ℚ :=
  match f.default_duration with
  | some q => if q = 0 then 8 else q
  | none => 8

/-- Complexity multiplier of `get_ai_predictions`:
`1 + (complexity_score - 0.5)` plus keyword adjustments +0.3 for
"integration", +0.2 for "custom", +0.5 for "migration" in the lowercased
text. -/
def pipeline_duration_multiplier (f : PipelineFeatures) : ℚ :=
  let text := f.text_content.map Char.toLower
  1 + (f.complexity_score - 0.5)
    + (if containsSub "integration".toList text then 0.3 else 0)
    + (if containsSub "custom".toList text then 0.2 else 0)
    + (if containsSub "migration".toList text then 0.5 else 0)

/-- Prediction record produced by `get_ai_predictions` (the explanation
string is not consumed by any caller the claims mention).  `due_days` is
the working-day count added to the task's expected start date. -/
structure PipelinePredictions where
  duration_hours : ℚ
  due_days : ℤ
  slip_risk : ℚ
  confidence : ℚ

/-- `get_ai_predictions(features, task)`: guarded duration, working-day
due-date offset, risk with complexity tiers and urgency bonus capped by
`min(·, 80)`, and template-based confidence. -/
def get_ai_predictions (f : PipelineFeatures) : PipelinePredictions :=
  let predicted_duration : ℚ := fallback8 (pipeline_base_duration f * pipeline_duration_multiplier f)
  let safe_duration : ℚ := if 0 < predicted_duration then predicted_duration else 8
  let base_risk : ℚ := 20
    + (if 0.7 < f.complexity_score then 30 else if 0.5 < f.complexity_score then 15 else 0)
    + (if containsSub "urgent".toList (lowerChars (f.project_priority.getD "")) then 20 else 0)
  { duration_hours := pyRound1 predicted_duration
    due_days := max 1 (pyTrunc (safe_duration / 8))
    slip_risk := min base_risk 80
    confidence :=
      match f.template_category with
      | some s => if s ≠ "" then 0.8 else 0.6
      | none => 0.6 }

/-- Employee row consumed by the pipeline ranker. -/
structure PipEmployee where
  name : String
  employee_name : String
  department : Option String
  designation : Option String

/-- Component scores of `calculate_assignee_score`. -/
structure AssigneeScores where
  availability_score : ℚ
  skill_match_score : ℚ
  workload_score : ℚ
  performance_score : ℚ
  fit_score : ℚ
  reasoning : String

/-- `calculate_assignee_score(employee, features, task)`: constant
availability 70, workload 60, performance 75; skill 60 plus department and
designation bonuses capped at 100; fit as the weighted sum over the
`weights` table (skill 0.4, availability 0.3, workload 0.2,
performance 0.1) rounded to one decimal. -/
def calculate_assignee_score (employee : PipEmployee) (f : PipelineFeatures) : AssigneeScores :=
  let availability_score : ℚ := 70
  let dept := lowerChars (employee.department.getD "")
  let template_category := lowerChars (f.template_category.getD "")
  let designation := lowerChars (employee.designation.getD "")
  let skill_score : ℚ := 60
    + (if containsSub "it".toList dept || containsSub "technology".toList dept then 20 else 0)
    + (if containsSub "implementation".toList template_category
          && containsSub "consultant".toList designation then 15 else 0)
    + (if containsSub "customization".toList template_category
          && containsSub "developer".toList designation then 25 else 0)
  let skill_match_score : ℚ := min skill_score 100
  let workload_score : ℚ := 60
  let performance_score : ℚ := 75
  let fit_score : ℚ := pyRound1 (skill_match_score * 0.4 + availability_score * 0.3
    + workload_score * 0.2 + performance_score * 0.1)
  let reasons : List String :=
    (if 80 < skill_match_score then ["High skill match"] else [])
    ++ (if 80 < availability_score then ["Good availability"] else [])
    ++ (if workload_score < 40 then ["Heavy current workload"] else [])
  { availability_score := availability_score
    skill_match_score := skill_match_score
    workload_score := workload_score
    performance_score := performance_score
    fit_score := fit_score
    reasoning := String.intercalate "; " (if reasons.isEmpty then ["Standard fit"] else reasons) }

/-- Recommendation entry of `get_assignee_recommendations`. -/
structure Recommendation where
  employee : String
  fit_score : ℚ
  rank : ℕ
  availability_score : ℚ
  skill_match_score : ℚ
  workload_score : ℚ
  performance_score : ℚ
  reasoning : String

/-- Per-employee recommendation rows in candidate enumeration order,
before sorting (rank still 0). -/
def baseRecommendations (f : PipelineFeatures) (employees : List PipEmployee) : List Recommendation :=
  employees.map (fun e =>
    let s := calculate_assignee_score e f
    { employee := e.name, fit_score := s.fit_score, rank := 0,
      availability_score := s.availability_score, skill_match_score := s.skill_match_score,
      workload_score := s.workload_score, performance_score := s.performance_score,
      reasoning := s.reasoning })

/-- Ordering realised by the stable `recommendations.sort(key=fit_score,
reverse=True)`: a stable descending sort by `fit_score` places `a` no
later than `b` exactly when `a` has the larger score, or the scores tie
and `a` originally came no later — i.e. the lexicographic order on
(score descending, original position ascending) over position-tagged
rows. -/
def recLex (a b : ℕ × Recommendation) : Prop :=
  b.2.fit_score < a.2.fit_score ∨ (a.2.fit_score = b.2.fit_score ∧ a.1 ≤ b.1)

instance : DecidableRel recLex := fun a b => by
  unfold recLex
  exact inferInstance

instance : IsTotal (ℕ × Recommendation) recLex := by
  constructor
  intro a b
  unfold recLex
  rcases lt_trichotomy a.2.fit_score b.2.fit_score with h | h | h
  · exact Or.inr (Or.inl h)
  · rcases Nat.le_total a.1 b.1 with hi | hi
    · exact Or.inl (Or.inr ⟨h, hi⟩)
    · exact Or.inr (Or.inr ⟨h.symm, hi⟩)
  · exact Or.inl (Or.inl h)

instance : IsTrans (ℕ × Recommendation) recLex := by
  constructor
  intro a b c hab hbc
  rcases hab with h1 | ⟨e1, i1⟩ <;> rcases hbc with h2 | ⟨e2, i2⟩
  · exact Or.inl (h2.trans h1)
  · exact Or.inl (e2 ▸ h1)
  · exact Or.inl (by rw [e1]; exact h2)
  · exact Or.inr ⟨e1.trans e2, i1.trans i2⟩

/-- Position-tagged recommendation rows after the stable descending sort. -/
def rankerSorted (f : PipelineFeatures) (employees : List PipEmployee) :
    List (ℕ × Recommendation) :=
  (baseRecommendations f employees).enum.insertionSort recLex

/-- `get_assignee_recommendations(features, task)` over a given candidate
pool: sort descending by fit score (stable), keep the top 5, and stamp
ranks 1.. onto them. -/
def get_assignee_recommendations (f : PipelineFeatures) (employees : List PipEmployee) :
    List Recommendation :=
  let sorted := (rankerSorted f employees).map (·.2)
  ((sorted.take 5).enum).map (fun p => { p.2 with rank := p.1 + 1 })

/-- Feature record of the worked example: subject "Website redesign
migration integration", no description, no project, a template source with
category "Implementation" and default duration 8h. -/
def worked_example_features : PipelineFeatures :=
  extract_task_features "Website redesign migration integration" Option.none Option.none
    (some ⟨"Implementation", Option.none, some 8⟩)

/-! ### `scheduler.py`: the greedy scheduler -/

/-- Loosely-typed duration value reaching `calculate_end_date`: `None`, a
number, or a string together with the result Python's `float` parser
would give for it (`none` when `float(s)` raises). -/
inductive PyVal where
  | none
  | num (q : ℚ)
  | str (s : String) (parsed : Option ℚ)

/-- Duration coercion of `calculate_end_date`: falsy values (`None`, 0,
`""`) become 8, then `try: float(x) except: 8`. -/
def pyFloatOr8 : PyVal → ℚ
  | .none => 8
  | .num q => if q = 0 then 8 else q
  | .str s parsed => if s = "" then 8 else (match parsed with | some q => q | none => 8)

/-- `calculate_end_date(start_date, duration_hours)`: defensively coerce
the duration, then add `max(1, int(duration/8))` days. -/
def calculate_end_date (start_date : ℤ) (duration_hours : PyVal) : ℤ :=
  start_date + max 1 (pyTrunc (pyFloatOr8 duration_hours / 8))

/-- Recommendation row of a task (`assignee_recommendations`). -/
structure RecRow where
  employee : String
  fit_score : ℚ
  reasoning : String

/-- Task row consumed by `build_greedy_schedule`; `none` models a SQL
NULL. -/
structure SchedTask where
  name : String
  subject : String
  priority : Option String
  predicted_duration_hours : Option ℚ
  slip_risk_percentage : Option ℚ
  assignee_recommendations : List RecRow

/-- Employee row consumed by the scheduler, with the utilization computed
by `get_available_employees`. -/
structure SchedEmployee where
  name : String
  employee_name : String
  current_utilization : ℚ

/-- Work block produced by `assign_task_to_employee`. -/
structure WorkBlock where
  task : String
  task_subject : String
  employee : String
  employee_name : String
  start_date : ℤ
  end_date : ℤ
  duration_hours : ℤ
  fit_score : ℚ
  reasoning : String

/-- Per-employee running schedule (`schedule["employee_schedules"][name]`). -/
structure EmpSchedule where
  employee_name : String
  blocks : List WorkBlock
  total_hours : ℤ
  utilization : ℚ

/-- Conflict entry recorded for an unassignable task. -/
structure SchedConflict where
  task : String
  subject : String
  reason : String

/-- Scheduler state (`total_duration_days`, derived afterwards from the
block dates, is not part of the per-task bookkeeping). -/
structure Schedule where
  work_blocks : List WorkBlock
  employee_schedules : List (String × EmpSchedule)
  conflicts : List SchedConflict

/-- Python dict lookup on an insertion-ordered association list. -/
def dictGet (m : List (String × EmpSchedule)) (k : String) : Option EmpSchedule :=
  (m.find? (fun p => p.1 == k)).map (·.2)

/-- Python dict assignment: overwrite the existing key, else append. -/
def dictSet (m : List (String × EmpSchedule)) (k : String) (v : EmpSchedule) :
    List (String × EmpSchedule) :=
  if (m.find? (fun p => p.1 == k)).isSome then
    m.map (fun p => if p.1 == k then (k, v) else p)
  else
    m ++ [(k, v)]

/-- Initial `employee_schedules` map built by `build_greedy_schedule`. -/
def initSchedules (employees : List SchedEmployee) : List (String × EmpSchedule) :=
  employees.foldl (fun m e =>
    dictSet m e.name ⟨e.employee_name, [], 0, e.current_utilization⟩) []

/-- Integer task duration `int(task.get("predicted_duration_hours") or 8)`
used by both assignment paths. -/
def taskDuration (t : SchedTask) : ℤ :=
  pyTrunc (match t.predicted_duration_hours with
    | some q => if q = 0 then 8 else q
    | none => 8)

/-- `find_next_available_slot(emp_schedule, current_date, duration)`: the
day after the employee's latest block end, else the anchor date. -/
def find_next_available_slot (es : EmpSchedule) (current_date : ℤ) : ℤ :=
  match es.blocks with
  | [] => current_date
  | b :: bs => (bs.foldl (fun m blk => max m blk.end_date) b.end_date) + 1

/-- Shared bookkeeping of both assignment paths: build the work block,
append it to the schedule and to the employee's block list, add the hours,
and bump the utilization by `duration/40*100` when the duration is
positive.  `getEmpName` models the `get_employee_name` database lookup. -/
def applyAssign (getEmpName : String → String) (t : SchedTask) (emp : String)
    (es : EmpSchedule) (dur : ℤ) (fit : ℚ) (reasoning : String)
    (current_date : ℤ) (sched : Schedule) : Schedule :=
  let start_date := find_next_available_slot es current_date
  let end_date := calculate_end_date start_date (PyVal.num (dur : ℚ))
  let wb : WorkBlock :=
    { task := t.name, task_subject := t.subject, employee := emp,
      employee_name := getEmpName emp, start_date := start_date, end_date := end_date,
      duration_hours := dur, fit_score := fit, reasoning := reasoning }
  let es2 : EmpSchedule :=
    { es with
      blocks := es.blocks ++ [wb]
      total_hours := es.total_hours + dur
      utilization := if 0 < dur then es.utilization + (dur : ℚ) / 40 * 100 else es.utilization }
  { sched with
    work_blocks := sched.work_blocks ++ [wb]
    employee_schedules := dictSet sched.employee_schedules emp es2 }

/-- Which return point of `assign_task_to_employee` produced an
assignment: the AI-recommendation loop or the availability fallback. -/
inductive AssignPath where
  | recommended
  | fallback
deriving DecidableEq

/-- Recommendation loop of `assign_task_to_employee`: walk the ranked
recommendations, skip employees missing from the schedule map, and accept
the first whose projected utilization stays within the 120% cap. -/
def tryRecommended (getEmpName : String → String) (t : SchedTask) (dur : ℤ)
    (current_date : ℤ) (sched : Schedule) : List RecRow → Option (String × Schedule)
  | [] => Option.none
  | rec :: rest =>
    match dictGet sched.employee_schedules rec.employee with
    | some es =>
      if es.utilization + (dur : ℚ) / 40 * 100 ≤ 120 then
        some (rec.employee,
          applyAssign getEmpName t rec.employee es dur rec.fit_score rec.reasoning
            current_date sched)
      else
        tryRecommended getEmpName t dur current_date sched rest
    | Option.none => tryRecommended getEmpName t dur current_date sched rest

/-- Utilization sort key of the fallback path.  In the source every
filtered employee has a schedule entry (the map is seeded from the same
pool), so the 0 default of the missing-key case is never consulted. -/
def schedUtil (sched : Schedule) (name : String) : ℚ :=
  ((dictGet sched.employee_schedules name).map (·.utilization)).getD 0

/-- `assign_task_to_employee(task, employees, schedule, current_date)`:
try the AI recommendations, else fall back to the least-utilized employee
under 100% utilization; `none` when no employee is available at all.  The
source computes `int(task.get("predicted_duration_hours") or 8)` afresh
in each path (`taskDuration` here).  The returned triple tags which
return point assigned and names the chosen employee. -/
def assign_task_to_employee (getEmpName : String → String) (t : SchedTask)
    (employees : List SchedEmployee) (sched : Schedule) (current_date : ℤ) :
    Option (AssignPath × String × Schedule) :=
  match tryRecommended getEmpName t (taskDuration t) current_date sched
      t.assignee_recommendations with
  | some (e, s2) => some (AssignPath.recommended, e, s2)
  | Option.none =>
    match (employees.filter (fun e =>
        match dictGet sched.employee_schedules e.name with
        | some es => decide (es.utilization < 100)
        | Option.none => false)).insertionSort
        (fun a b => schedUtil sched a.name ≤ schedUtil sched b.name) with
    | [] => Option.none
    | e :: _ =>
      match dictGet sched.employee_schedules e.name with
      | some es =>
        some (AssignPath.fallback, e.name,
          applyAssign getEmpName t e.name es (taskDuration t) 60
            "Assigned based on availability" current_date sched)
      | Option.none => Option.none

/-- `get_priority_weight(priority)` with the `weights.get(priority, 2)`
default (a task row with a NULL priority also falls to the default). -/
def get_priority_weight (priority : Option String) : ℚ :=
  match priority with
  | some "Low" => 1
  | some "Medium" => 2
  | some "High" => 3
  | some "Urgent" => 4
  | _ => 2

/-- `task.get("slip_risk_percentage") or 0`. -/
def taskSlip (t : SchedTask) : ℚ :=
  match t.slip_risk_percentage with
  | some q => q
  | none => 0

/-- `task.get("predicted_duration_hours") or 8` as used in the sort keys
(no `int` truncation there). -/
def taskDurQ (t : SchedTask) : ℚ :=
  match t.predicted_duration_hours with
  | some q => if q = 0 then 8 else q
  | none => 8

/-- Ascending lexicographic comparison of two-component sort keys, the
total preorder realised by Python's stable tuple sort. -/
def lex2 (a b : ℚ × ℚ) : Prop :=
  a.1 < b.1 ∨ (a.1 = b.1 ∧ a.2 ≤ b.2)

instance : DecidableRel lex2 := fun a b => by
  unfold lex2
  exact inferInstance

/-- Ascending lexicographic comparison of three-component sort keys. -/
def lex3 (a b : ℚ × ℚ × ℚ) : Prop :=
  a.1 < b.1 ∨ (a.1 = b.1 ∧ lex2 a.2 b.2)

instance : DecidableRel lex3 := fun a b => by
  unfold lex3 lex2
  exact inferInstance

/-- Objective-dependent stable task ordering of `build_greedy_schedule`. -/
def sortTasks (objective : String) (tasks : List SchedTask) : List SchedTask :=
  if objective = "minimize_delays" then
    tasks.insertionSort (fun a b =>
      lex2 (-get_priority_weight a.priority, -taskSlip a)
           (-get_priority_weight b.priority, -taskSlip b))
  else if objective = "maximize_throughput" then
    tasks.insertionSort (fun a b =>
      lex2 (taskDurQ a, -get_priority_weight a.priority)
           (taskDurQ b, -get_priority_weight b.priority))
  else
    tasks.insertionSort (fun a b =>
      lex3 (-get_priority_weight a.priority, -(taskSlip a * 0.5), taskDurQ a * 0.3)
           (-get_priority_weight b.priority, -(taskSlip b * 0.5), taskDurQ b * 0.3))

/-- Per-task body of the scheduling loop in `build_greedy_schedule`: take
the assigned schedule, or record the conflict entry when the task could
not be placed. -/
def scheduleStep (getEmpName : String → String) (employees : List SchedEmployee)
    (current_date : ℤ) (sched : Schedule) (t : SchedTask) : Schedule :=
  match assign_task_to_employee getEmpName t employees sched current_date with
  | some (_, _, s2) => s2
  | Option.none =>
    { sched with conflicts :=
        sched.conflicts ++ [⟨t.name, t.subject, "No suitable employee available"⟩] }

/-- `build_greedy_schedule(tasks, employees, objective)`: seed the
employee map, sort the tasks by the objective, then walk them once,
recording a conflict entry whenever `assign_task_to_employee` places
nothing. -/
def build_greedy_schedule (getEmpName : String → String) (tasks : List SchedTask)
    (employees : List SchedEmployee) (objective : String) (current_date : ℤ) : Schedule :=
  let init : Schedule :=
    { work_blocks := [], employee_schedules := initSchedules employees, conflicts := [] }
  (sortTasks objective tasks).foldl (scheduleStep getEmpName employees current_date) init

/-! ### Claims about the on-demand prediction API (`ai_predictions.py`) -/

/-- Witness task for the recommended path: 8h duration, one AI
recommendation. -/
def schedTaskA : SchedTask :=
  ⟨"TASK-A", "Kickoff call", some "High", some 8, Option.none,
    [⟨"EMP-A", 80, "Recommended"⟩]⟩

/-- Witness schedule state with one idle employee. -/
def schedStateA : Schedule :=
  ⟨[], [("EMP-A", ⟨"Alice", [], 0, 0⟩)], []⟩

/-- Witness employee pool entry for the recommended path. -/
def schedEmpA : SchedEmployee :=
  ⟨"EMP-A", "Alice", 0⟩

/-- Witness task for the fallback path: no AI recommendations. -/
def schedTaskB : SchedTask :=
  ⟨"TASK-B", "Wrap up", Option.none, Option.none, Option.none, []⟩

/-- Witness schedule state with one employee at 50% utilization. -/
def schedStateB : Schedule :=
  ⟨[], [("EMP-B", ⟨"Bob", [], 0, 50⟩)], []⟩

/-- Witness employee pool entry for the fallback path. -/
def schedEmpB : SchedEmployee :=
  ⟨"EMP-B", "Bob", 50⟩

/-! ### Claims about the greedy scheduler -/

/-- Rounding to one decimal cannot go below an integer lower bound. -/
lemma pyRound1_ge_int {n : ℤ} {q : ℚ} (h : (n : ℚ) ≤ q) : (n : ℚ) ≤ pyRound1 q := by
  unfold pyRound1
  rw [round_eq]
  have hfloor : (10 * n : ℤ) ≤ ⌊q * 10 + 1 / 2⌋ := by
    rw [Int.le_floor]
    push_cast
    nlinarith
  have : ((10 * n : ℤ) : ℚ) ≤ (⌊q * 10 + 1 / 2⌋ : ℚ) := by exact_mod_cast hfloor
  push_cast at this ⊢
  linarith

/-- Rounding to one decimal cannot exceed an integer upper bound. -/
lemma pyRound1_le_int {n : ℤ} {q : ℚ} (h : q ≤ (n : ℚ)) : pyRound1 q ≤ (n : ℚ) := by
  unfold pyRound1
  rw [round_eq]
  have hfloor : ⌊q * 10 + 1 / 2⌋ ≤ (10 * n : ℤ) := by
    have : ⌊q * 10 + 1 / 2⌋ < 10 * n + 1 := by
      rw [Int.floor_lt]
      push_cast
      nlinarith
    omega
  have : ((⌊q * 10 + 1 / 2⌋ : ℤ) : ℚ) ≤ ((10 * n : ℤ) : ℚ) := by exact_mod_cast hfloor
  push_cast at this ⊢
  linarith

/-- Rounding an integer value to one decimal returns it unchanged. -/
lemma pyRound1_intCast (n : ℤ) : pyRound1 (n : ℚ) = (n : ℚ) := by
  have h1 := pyRound1_ge_int (n := n) (q := (n : ℚ)) le_rfl
  have h2 := pyRound1_le_int (n := n) (q := (n : ℚ)) le_rfl
  linarith

/-- Clamping `min(hi, max(lo, x))` keeps the result within `[lo, hi]`. -/
lemma clamp_bounds {lo hi x : ℚ} (h : lo ≤ hi) :
    lo ≤ min hi (max lo x) ∧ min hi (max lo x) ≤ hi :=
  ⟨le_min h (le_max_left _ _), min_le_left _ _⟩

/-- C3: for every task subject and description (and every task record for
the confidence inputs), `complexity_score ∈ [0.1, 1.0]`,
`confidence ∈ [0.3, 1.0]`, `slip_risk_percent ∈ [5, 80]` and
`duration_hours > 0`. -/
theorem prediction_range_invariants (subject description : List Char) (t : PredTaskDoc) :
    0.1 ≤ calculate_complexity_score subject description ∧
    calculate_complexity_score subject description ≤ 1 ∧
    0.3 ≤ calculate_confidence_score t (calculate_complexity_score subject description) ∧
    calculate_confidence_score t (calculate_complexity_score subject description) ≤ 1 ∧
    5 ≤ calculate_slip_risk (calculate_complexity_score subject description)
          (calculate_predicted_duration (calculate_complexity_score subject description) subject) ∧
    calculate_slip_risk (calculate_complexity_score subject description)
          (calculate_predicted_duration (calculate_complexity_score subject description) subject) ≤ 80 ∧
    0 < calculate_predicted_duration (calculate_complexity_score subject description) subject := by
  have hcomp : 0.1 ≤ calculate_complexity_score subject description ∧
      calculate_complexity_score subject description ≤ 1 := by
    unfold calculate_complexity_score
    constructor
    · exact le_min (by norm_num) (le_max_left _ _)
    · exact le_trans (min_le_left _ _) (by norm_num)
  have hconf : 0.3 ≤ calculate_confidence_score t (calculate_complexity_score subject description) ∧
      calculate_confidence_score t (calculate_complexity_score subject description) ≤ 1 := by
    unfold calculate_confidence_score
    constructor
    · exact le_min (by norm_num) (le_max_left _ _)
    · exact le_trans (min_le_left _ _) (by norm_num)
  have hslip : 5 ≤ calculate_slip_risk (calculate_complexity_score subject description)
        (calculate_predicted_duration (calculate_complexity_score subject description) subject) ∧
      calculate_slip_risk (calculate_complexity_score subject description)
        (calculate_predicted_duration (calculate_complexity_score subject description) subject) ≤ 80 := by
    unfold calculate_slip_risk
    constructor
    · exact le_min (by norm_num) (le_max_left _ _)
    · exact min_le_left _ _
  have hdur : 0 < calculate_predicted_duration (calculate_complexity_score subject description) subject := by
    unfold calculate_predicted_duration
    set b : ℚ :=
      (if ["discovery", "call", "meeting"].any (fun k => containsSub k.toList subject) then (4 : ℚ)
       else if ["training", "session"].any (fun k => containsSub k.toList subject) then 16
       else if ["migration", "setup", "installation"].any (fun k => containsSub k.toList subject) then 20
       else if ["development", "custom", "workflow"].any (fun k => containsSub k.toList subject) then 32
       else 8) with hb
    have hbase : (4 : ℚ) ≤ b := by
      rw [hb]
      split
      · norm_num
      split
      · norm_num
      split
      · norm_num
      split
      · norm_num
      · norm_num
    have hc := hcomp.1
    have hmul : (1 : ℚ) ≤ 1 + calculate_complexity_score subject description * 1.5 := by
      nlinarith
    have hge : ((4 : ℤ) : ℚ) ≤ b * (1 + calculate_complexity_score subject description * 1.5) := by
      push_cast
      nlinarith
    calc (0 : ℚ) < ((4 : ℤ) : ℚ) := by norm_num
    _ ≤ _ := pyRound1_ge_int hge
  exact ⟨hcomp.1, hcomp.2, hconf.1, hconf.2, hslip.1, hslip.2, hdur⟩

/-- C5: a subject containing both "call" and "migration" resolves to the
4-hour call/meeting bucket (first-match-wins), so the predicted duration
is `round(4 * (1 + complexity * 1.5), 1)`. -/
theorem bucket_order_first_match (complexity : ℚ) (task_subject : List Char)
    (hcall : containsSub "call".toList task_subject = true)
    (hmig : containsSub "migration".toList task_subject = true) :
    calculate_predicted_duration complexity task_subject
      = pyRound1 (4 * (1 + complexity * 1.5)) := by
  unfold calculate_predicted_duration
  have hany : (["discovery", "call", "meeting"].any
      (fun k => containsSub k.toList task_subject)) = true := by
    simp only [List.any_cons, List.any_nil, hcall, Bool.or_true, Bool.true_or, Bool.or_false]
  rw [if_pos hany]

/-- Witness for C5 at the concrete subject "data migration call". -/
theorem bucket_order_first_match_witness :
    containsSub "call".toList "data migration call".toList = true ∧
    containsSub "migration".toList "data migration call".toList = true ∧
    calculate_predicted_duration 0.5 "data migration call".toList
      = pyRound1 (4 * (1 + 0.5 * 1.5)) :=
  ⟨by decide, by decide,
    bucket_order_first_match 0.5 "data migration call".toList (by decide) (by decide)⟩

/-- C4 counterexample: at a 12-hour duration the code (floor with minimum
1 working day) and the claim (ceiling) give different due dates: the code
books `int(max(1, int(12/8)) * 1.4) = 1` calendar day before the jitter
offset, the claimed formula `int(ceil(12/8) * 1.4) = 2`. -/
theorem due_date_ceil_counterexample :
    calculate_dynamic_due_date (fun _ => 0) 0 "TASK-0001" 12
      ≠ spec_due_date (fun _ => 0) 0 "TASK-0001" 12 := by
  have hl : calculate_dynamic_due_date (fun _ => 0) 0 "TASK-0001" 12 = 2 := by
    unfold calculate_dynamic_due_date pyTrunc
    norm_num
  have hr : spec_due_date (fun _ => 0) 0 "TASK-0001" 12 = 3 := by
    unfold spec_due_date pyTrunc
    have hceil : (⌈(12 : ℚ) / 8⌉ : ℤ) = 2 := by
      rw [Int.ceil_eq_iff]
      norm_num
    rw [hceil]
    norm_num
  omega

/-- C4 amended: the predicted due date is the base date (task creation
date, else today) plus `int(max(1, int(duration/8)) * 1.4)` calendar days
plus the deterministic per-task offset `abs(hash(task_id)) % 10 + 1`. -/
theorem due_date_formula (pyHash : List Char → ℕ) (base_date : ℤ)
    (task_name : String) (d : ℚ) :
    calculate_dynamic_due_date pyHash base_date task_name d
      = base_date + pyTrunc (((max 1 (pyTrunc (d / 8)) : ℤ) : ℚ) * 1.4)
        + ((pyHash task_name.toList % 10 : ℕ) : ℤ) + 1 := by
  unfold calculate_dynamic_due_date
  push_cast
  ring

/-- Rounding a `max 30 (min 95 ·)`-clamped integer to one decimal stays
within [30, 95]. -/
lemma clamp_int_round1 (x : ℤ) :
    30 ≤ pyRound1 ((max 30 (min 95 x) : ℤ) : ℚ) ∧
    pyRound1 ((max 30 (min 95 x) : ℤ) : ℚ) ≤ 95 := by
  constructor
  · have h : ((30 : ℤ) : ℚ) ≤ ((max 30 (min 95 x) : ℤ) : ℚ) :=
      Int.cast_le.mpr (le_max_left 30 (min 95 x))
    have := pyRound1_ge_int h
    calc (30 : ℚ) = ((30 : ℤ) : ℚ) := by norm_num
    _ ≤ _ := this
  · have h : ((max 30 (min 95 x) : ℤ) : ℚ) ≤ ((95 : ℤ) : ℚ) :=
      Int.cast_le.mpr (max_le (by norm_num) (min_le_left 95 x))
    have := pyRound1_le_int h
    calc pyRound1 ((max 30 (min 95 x) : ℤ) : ℚ) ≤ ((95 : ℤ) : ℚ) := this
    _ = (95 : ℚ) := by norm_num

/-- C10: the seeded-noise fit score of the prediction API is always within
[30, 95], for every variance the seeded `randint(-10, 15)` draw can
produce. -/
theorem employee_fit_score_clamped (pyHash : List Char → ℕ) (rngVar : ℕ → ℤ)
    (employee_name : String) (employee_department : Option String)
    (task_subject : List Char) (complexity : ℚ)
    (hvar : ∀ s : ℕ, -10 ≤ rngVar s ∧ rngVar s ≤ 15) :
    30 ≤ calculate_employee_fit_score pyHash rngVar employee_name employee_department
          task_subject complexity ∧
    calculate_employee_fit_score pyHash rngVar employee_name employee_department
          task_subject complexity ≤ 95 := by
  unfold calculate_employee_fit_score
  exact clamp_int_round1 _

/-- Witness for C10 at a concrete employee, subject and variance draw. -/
theorem employee_fit_score_clamped_witness :
    30 ≤ calculate_employee_fit_score (fun _ => 7) (fun _ => 12) "EMP-0001" (some "IT")
          "system setup".toList 0.5 ∧
    calculate_employee_fit_score (fun _ => 7) (fun _ => 12) "EMP-0001" (some "IT")
          "system setup".toList 0.5 ≤ 95 :=
  employee_fit_score_clamped (fun _ => 7) (fun _ => 12) "EMP-0001" (some "IT")
    "system setup".toList 0.5 (fun _ => by norm_num)

/-! ### Claims about the pipeline ranker and duration handling -/

/-- C6: the pipeline ranker's component scores are the constants 70
(availability), 60 (workload), 75 (performance); skill starts at base 60,
gains the department/designation bonuses and is capped at 100; and the
fit score is the weighted sum skill·0.4 + availability·0.3 + workload·0.2
+ performance·0.1 rounded to one decimal. -/
theorem assignee_fit_score_formula (employee : PipEmployee) (f : PipelineFeatures) :
    (calculate_assignee_score employee f).availability_score = 70 ∧
    (calculate_assignee_score employee f).workload_score = 60 ∧
    (calculate_assignee_score employee f).performance_score = 75 ∧
    (calculate_assignee_score employee f).skill_match_score
      = min (60
          + (if containsSub "it".toList (lowerChars (employee.department.getD ""))
                || containsSub "technology".toList (lowerChars (employee.department.getD ""))
             then (20 : ℚ) else 0)
          + (if containsSub "implementation".toList (lowerChars (f.template_category.getD ""))
                && containsSub "consultant".toList (lowerChars (employee.designation.getD ""))
             then (15 : ℚ) else 0)
          + (if containsSub "customization".toList (lowerChars (f.template_category.getD ""))
                && containsSub "developer".toList (lowerChars (employee.designation.getD ""))
             then (25 : ℚ) else 0)) 100 ∧
    (calculate_assignee_score employee f).fit_score
      = pyRound1 ((calculate_assignee_score employee f).skill_match_score * 0.4
          + 70 * 0.3 + 60 * 0.2 + 75 * 0.1) :=
  ⟨rfl, rfl, rfl, rfl, rfl⟩

/-- C8: a non-positive computed duration falls back to 8 in
`get_ai_predictions`, and `calculate_end_date` coerces `None`/unparsable
durations to 8 and is total: it always books at least one day. -/
theorem duration_fallbacks_total (f : PipelineFeatures) (x : ℚ)
    (start_date : ℤ) (v : PyVal) :
    (x ≤ 0 → fallback8 x = 8) ∧
    (0 < fallback8 x) ∧
    ((get_ai_predictions f).duration_hours
      = pyRound1 (fallback8 (pipeline_base_duration f * pipeline_duration_multiplier f))) ∧
    ((v = PyVal.none ∨ ∃ s, v = PyVal.str s Option.none) →
      calculate_end_date start_date v = start_date + 1) ∧
    (start_date + 1 ≤ calculate_end_date start_date v) := by
  have htrunc8 : pyTrunc ((8 : ℚ) / 8) = 1 := by
    unfold pyTrunc
    norm_num
  refine ⟨?_, ?_, rfl, ?_, ?_⟩
  · intro hx
    unfold fallback8
    rw [if_pos hx]
  · unfold fallback8
    split
    · norm_num
    · rename_i h
      push_neg at h
      exact h
  · intro hv
    have h8 : pyFloatOr8 v = 8 := by
      rcases hv with hv | ⟨s, hv⟩ <;> subst hv
      · rfl
      · simp only [pyFloatOr8]
        split <;> rfl
    unfold calculate_end_date
    rw [h8, htrunc8]
    norm_num
  · unfold calculate_end_date
    have h1 : (1 : ℤ) ≤ max 1 (pyTrunc (pyFloatOr8 v / 8)) := le_max_left _ _
    omega

/-- Witness for C8: a negative duration falls back to 8; a `None` and an
unparsable string duration both book exactly one day. -/
theorem duration_fallbacks_total_witness :
    fallback8 (-3) = 8 ∧
    calculate_end_date 0 PyVal.none = 1 ∧
    calculate_end_date 5 (PyVal.str "abc" Option.none) = 6 := by
  refine ⟨?_, ?_, ?_⟩
  · exact (duration_fallbacks_total
      (extract_task_features "x" Option.none Option.none Option.none) (-3) 0 PyVal.none).1
      (by norm_num)
  · have h := (duration_fallbacks_total
      (extract_task_features "x" Option.none Option.none Option.none) (-3) 0 PyVal.none).2.2.2.1
      (Or.inl rfl)
    omega
  · have h := (duration_fallbacks_total
      (extract_task_features "x" Option.none Option.none Option.none) (-3) 5
      (PyVal.str "abc" Option.none)).2.2.2.1 (Or.inr ⟨"abc", rfl⟩)
    omega

/-- C7: the ranker is deterministic — identical task features, candidate
pool and environment give identical ranked output, and the seeded noise of
the prediction-API fit score is a function of the employee identity and
task text only — and its sort is descending by fit score with ties kept in
original candidate order (`recLex` over position-tagged rows), the sorted
list being a permutation of the scored input rows. -/
theorem ranker_deterministic_stable (f1 f2 : PipelineFeatures)
    (pool1 pool2 : List PipEmployee) (pyHash : List Char → ℕ) (rngVar : ℕ → ℤ)
    (n1 n2 : String) (d1 d2 : Option String) (s1 s2 : List Char) (c1 c2 : ℚ)
    (hf : f1 = f2) (hp : pool1 = pool2) (hname : n1 = n2) (hdept : d1 = d2)
    (hsubj : s1 = s2) (hcplx : c1 = c2) :
    get_assignee_recommendations f1 pool1 = get_assignee_recommendations f2 pool2 ∧
    List.Pairwise recLex (rankerSorted f1 pool1) ∧
    (rankerSorted f1 pool1).Perm (baseRecommendations f1 pool1).enum ∧
    calculate_employee_fit_score pyHash rngVar n1 d1 s1 c1
      = calculate_employee_fit_score pyHash rngVar n2 d2 s2 c2 := by
  subst hf hp hname hdept hsubj hcplx
  refine ⟨rfl, ?_, ?_, rfl⟩
  · exact List.sorted_insertionSort recLex (baseRecommendations f1 pool1).enum
  · exact List.perm_insertionSort recLex (baseRecommendations f1 pool1).enum

/-- Witness for C7 at a concrete feature record and one-employee pool. -/
theorem ranker_deterministic_stable_witness :
    get_assignee_recommendations
        (extract_task_features "ERP setup" Option.none Option.none Option.none)
        [⟨"EMP-0001", "Alice", some "IT", some "Consultant"⟩]
      = get_assignee_recommendations
        (extract_task_features "ERP setup" Option.none Option.none Option.none)
        [⟨"EMP-0001", "Alice", some "IT", some "Consultant"⟩] ∧
    List.Pairwise recLex (rankerSorted
        (extract_task_features "ERP setup" Option.none Option.none Option.none)
        [⟨"EMP-0001", "Alice", some "IT", some "Consultant"⟩]) ∧
    (rankerSorted (extract_task_features "ERP setup" Option.none Option.none Option.none)
        [⟨"EMP-0001", "Alice", some "IT", some "Consultant"⟩]).Perm
      (baseRecommendations (extract_task_features "ERP setup" Option.none Option.none Option.none)
        [⟨"EMP-0001", "Alice", some "IT", some "Consultant"⟩]).enum ∧
    calculate_employee_fit_score (fun _ => 3) (fun _ => 2) "EMP-0001" (some "IT")
        "erp setup".toList 0.5
      = calculate_employee_fit_score (fun _ => 3) (fun _ => 2) "EMP-0001" (some "IT")
        "erp setup".toList 0.5 :=
  ranker_deterministic_stable _ _ _ _ (fun _ => 3) (fun _ => 2) _ _ _ _ _ _ _ _
    rfl rfl rfl rfl rfl rfl

/-! ### The worked example (claim C9) -/

/-- The worked example hits exactly the two flat keywords "integration"
and "migration", so the flat-path complexity score is 0.5. -/
lemma worked_example_complexity : worked_example_features.complexity_score = 0.5 := by
  unfold worked_example_features extract_task_features
  have hhits : (pipeline_complexity_keywords.filter
      (fun kw => containsSub (lowerChars kw)
        (("Website redesign migration integration".toList
          ++ ' ' :: (match (Option.none : Option String) with
                     | some d => d.toList
                     | Option.none => [])).map Char.toLower))).length = 2 := by decide
  simp only [hhits]
  norm_num

/-- Field values of the worked example's feature record. -/
lemma worked_example_fields :
    worked_example_features.text_content
      = "Website redesign migration integration".toList ++ ' ' :: [] ∧
    worked_example_features.project_priority = Option.none ∧
    worked_example_features.template_category = some "Implementation" ∧
    worked_example_features.default_duration = some 8 := by
  refine ⟨rfl, rfl, rfl, ?_⟩
  unfold worked_example_features extract_task_features
  simp only [Option.map_some]
  norm_num

/-- Predictions of the worked example: duration 14.4h, slip risk 20%,
confidence 0.8. -/
lemma worked_example_predictions :
    (get_ai_predictions worked_example_features).duration_hours = 14.4 ∧
    (get_ai_predictions worked_example_features).slip_risk = 20 ∧
    (get_ai_predictions worked_example_features).confidence = 0.8 := by
  obtain ⟨htext, hpp, htc, hdd⟩ := worked_example_fields
  have hcs := worked_example_complexity
  have hint : containsSub "integration".toList
      (("Website redesign migration integration".toList ++ ' ' :: []).map Char.toLower)
      = true := by decide
  have hcust : containsSub "custom".toList
      (("Website redesign migration integration".toList ++ ' ' :: []).map Char.toLower)
      = false := by decide
  have hmigr : containsSub "migration".toList
      (("Website redesign migration integration".toList ++ ' ' :: []).map Char.toLower)
      = true := by decide
  have hurg : containsSub "urgent".toList (lowerChars "") = false := by decide
  have hbase : pipeline_base_duration worked_example_features = 8 := by
    unfold pipeline_base_duration
    rw [hdd]
    norm_num
  have hmult : pipeline_duration_multiplier worked_example_features = 1.8 := by
    unfold pipeline_duration_multiplier
    rw [htext, hcs]
    simp only [hint, hcust, hmigr, if_true, if_false]
    norm_num
  have hdur : fallback8 (pipeline_base_duration worked_example_features
      * pipeline_duration_multiplier worked_example_features) = 14.4 := by
    rw [hbase, hmult]
    unfold fallback8
    norm_num
  refine ⟨?_, ?_, ?_⟩
  · simp only [get_ai_predictions]
    rw [hdur]
    unfold pyRound1
    rw [round_eq]
    norm_num
  · simp only [get_ai_predictions]
    rw [hcs, hpp]
    simp only [Option.getD_none, hurg, Bool.false_eq_true, if_false]
    norm_num
  · simp only [get_ai_predictions]
    rw [htc]
    simp only [ne_eq]
    norm_num
    decide

/-- C9 counterexample: on the worked example the pipeline path yields slip
risk 20% (the 0.5 complexity score does not exceed the strict `> 0.5`
threshold, and this path has no duration-based risk addend) and
template-based confidence 0.8, so the claimed "risk 50% and confidence
0.75" is false. -/
theorem worked_example_claim_false :
    ¬ ((get_ai_predictions worked_example_features).slip_risk = 50 ∧
       (get_ai_predictions worked_example_features).confidence = 0.75) := by
  intro h
  have h20 := worked_example_predictions.2.1
  rw [h.1] at h20
  norm_num at h20

/-- C9 amended: the worked example has flat-path complexity 0.5 and
duration 8 × 1.8 = 14.4h as claimed, but slip risk 20% (base 20, no tier
fires) and confidence 0.8 (template-based in the pipeline path). -/
theorem worked_example_values :
    worked_example_features.complexity_score = 0.5 ∧
    (get_ai_predictions worked_example_features).duration_hours = 14.4 ∧
    (get_ai_predictions worked_example_features).slip_risk = 20 ∧
    (get_ai_predictions worked_example_features).confidence = 0.8 :=
  ⟨worked_example_complexity, worked_example_predictions.1,
    worked_example_predictions.2.1, worked_example_predictions.2.2⟩

/-- Both assignment paths append exactly one work block and leave the
conflict list untouched. -/
lemma applyAssign_counts (getEmpName : String → String) (t : SchedTask) (emp : String)
    (es : EmpSchedule) (dur : ℤ) (fit : ℚ) (reasoning : String)
    (current_date : ℤ) (sched : Schedule) :
    (applyAssign getEmpName t emp es dur fit reasoning current_date sched).work_blocks.length
      = sched.work_blocks.length + 1 ∧
    (applyAssign getEmpName t emp es dur fit reasoning current_date sched).conflicts
      = sched.conflicts := by
  unfold applyAssign
  constructor
  · simp
  · rfl

/-- When the recommendation loop assigns, the chosen employee's schedule
entry passes the 120% projected-utilization check against the incoming
schedule, and the new schedule has one more work block and the same
conflicts. -/
lemma tryRecommended_spec (getEmpName : String → String) (t : SchedTask) (dur : ℤ)
    (current_date : ℤ) (sched : Schedule) :
    ∀ (recs : List RecRow) (e : String) (s2 : Schedule),
      tryRecommended getEmpName t dur current_date sched recs = some (e, s2) →
      (∃ es, dictGet sched.employee_schedules e = some es ∧
        es.utilization + (dur : ℚ) / 40 * 100 ≤ 120) ∧
      s2.work_blocks.length = sched.work_blocks.length + 1 ∧
      s2.conflicts = sched.conflicts := by
  intro recs
  induction recs with
  | nil =>
    intro e s2 h
    simp [tryRecommended] at h
  | cons r rest ih =>
    intro e s2 h
    rw [tryRecommended] at h
    cases hget : dictGet sched.employee_schedules r.employee with
    | none =>
      simp only [hget] at h
      exact ih e s2 h
    | some es =>
      simp only [hget] at h
      by_cases hcap : es.utilization + (dur : ℚ) / 40 * 100 ≤ 120
      · rw [if_pos hcap] at h
        have hinj := Option.some.inj h
        have hemp : r.employee = e := congrArg Prod.fst hinj
        have hsc : applyAssign getEmpName t r.employee es dur r.fit_score r.reasoning
            current_date sched = s2 := congrArg Prod.snd hinj
        subst hemp hsc
        exact ⟨⟨es, hget, hcap⟩,
          (applyAssign_counts _ _ _ _ _ _ _ _ _).1,
          (applyAssign_counts _ _ _ _ _ _ _ _ _).2⟩
      · rw [if_neg hcap] at h
        exact ih e s2 h

/-- Specification of a successful `assign_task_to_employee` call: a
recommended-path assignment passes the 120% projected-utilization check,
a fallback assignment goes to an employee below 100% utilization, and the
new schedule has exactly one more work block and unchanged conflicts. -/
lemma assign_some_spec (getEmpName : String → String) (t : SchedTask)
    (employees : List SchedEmployee) (sched : Schedule) (current_date : ℤ)
    (path : AssignPath) (e : String) (s2 : Schedule)
    (h : assign_task_to_employee getEmpName t employees sched current_date
      = some (path, e, s2)) :
    (path = AssignPath.recommended →
      ∃ es, dictGet sched.employee_schedules e = some es ∧
        es.utilization + (taskDuration t : ℚ) / 40 * 100 ≤ 120) ∧
    (path = AssignPath.fallback →
      ∃ es, dictGet sched.employee_schedules e = some es ∧ es.utilization < 100) ∧
    s2.work_blocks.length = sched.work_blocks.length + 1 ∧
    s2.conflicts = sched.conflicts := by
  unfold assign_task_to_employee at h
  cases htry : tryRecommended getEmpName t (taskDuration t) current_date sched
      t.assignee_recommendations with
  | some pr =>
    obtain ⟨e', s'⟩ := pr
    simp only [htry] at h
    obtain ⟨hpath, hemp, hsched⟩ : AssignPath.recommended = path ∧ e' = e ∧ s' = s2 := by
      have := Option.some.inj h
      exact ⟨congrArg Prod.fst this, congrArg (fun p => p.2.1) this,
        congrArg (fun p => p.2.2) this⟩
    subst hpath hemp hsched
    have hspec := tryRecommended_spec getEmpName t (taskDuration t) current_date sched
      t.assignee_recommendations e' s' htry
    refine ⟨fun _ => hspec.1, fun hcontra => ?_, hspec.2.1, hspec.2.2⟩
    cases hcontra
  | none =>
    simp only [htry] at h
    cases hsort : (employees.filter (fun e =>
        match dictGet sched.employee_schedules e.name with
        | some es => decide (es.utilization < 100)
        | Option.none => false)).insertionSort
        (fun a b => schedUtil sched a.name ≤ schedUtil sched b.name) with
    | nil =>
      simp only [hsort] at h
      simp at h
    | cons a rest =>
      simp only [hsort] at h
      cases hget : dictGet sched.employee_schedules a.name with
      | none =>
        simp only [hget] at h
        simp at h
      | some es =>
        simp only [hget] at h
        obtain ⟨hpath, hemp, hsched⟩ : AssignPath.fallback = path ∧ a.name = e ∧
            applyAssign getEmpName t a.name es (taskDuration t) 60
              "Assigned based on availability" current_date sched = s2 := by
          have := Option.some.inj h
          exact ⟨congrArg Prod.fst this, congrArg (fun p => p.2.1) this,
            congrArg (fun p => p.2.2) this⟩
        subst hpath hemp hsched
        have hmem : a ∈ employees.filter (fun e =>
            match dictGet sched.employee_schedules e.name with
            | some es => decide (es.utilization < 100)
            | Option.none => false) := by
          have : a ∈ (employees.filter (fun e =>
              match dictGet sched.employee_schedules e.name with
              | some es => decide (es.utilization < 100)
              | Option.none => false)).insertionSort
              (fun a b => schedUtil sched a.name ≤ schedUtil sched b.name) := by
            rw [hsort]
            exact List.mem_cons_self a rest
          exact (List.perm_insertionSort _ _).subset this
        have hpred := List.of_mem_filter hmem
        rw [hget] at hpred
        have hutil : es.utilization < 100 := of_decide_eq_true hpred
        refine ⟨fun hcontra => ?_, fun _ => ⟨es, hget, hutil⟩,
          (applyAssign_counts _ _ _ _ _ _ _ _ _).1,
          (applyAssign_counts _ _ _ _ _ _ _ _ _).2⟩
        cases hcontra

/-- C1: the greedy scheduler's recommended path only assigns when the
chosen employee's projected utilization (current + duration/40·100) stays
within 120%, and its fallback path only assigns to an employee whose
utilization at assignment time is below 100%. -/
theorem scheduler_utilization_caps (getEmpName : String → String) (t : SchedTask)
    (employees : List SchedEmployee) (sched : Schedule) (current_date : ℤ)
    (path : AssignPath) (e : String) (s2 : Schedule)
    (h : assign_task_to_employee getEmpName t employees sched current_date
      = some (path, e, s2)) :
    (path = AssignPath.recommended →
      ∃ es, dictGet sched.employee_schedules e = some es ∧
        es.utilization + (taskDuration t : ℚ) / 40 * 100 ≤ 120) ∧
    (path = AssignPath.fallback →
      ∃ es, dictGet sched.employee_schedules e = some es ∧ es.utilization < 100) :=
  ⟨(assign_some_spec getEmpName t employees sched current_date path e s2 h).1,
   (assign_some_spec getEmpName t employees sched current_date path e s2 h).2.1⟩

/-- One loop iteration of `build_greedy_schedule` adds exactly one entry:
a work block on assignment, a conflict otherwise. -/
lemma scheduleStep_counts (getEmpName : String → String) (employees : List SchedEmployee)
    (current_date : ℤ) (sched : Schedule) (t : SchedTask) :
    (scheduleStep getEmpName employees current_date sched t).work_blocks.length
      + (scheduleStep getEmpName employees current_date sched t).conflicts.length
      = sched.work_blocks.length + sched.conflicts.length + 1 := by
  unfold scheduleStep
  cases hstep : assign_task_to_employee getEmpName t employees sched current_date with
  | some pr =>
    obtain ⟨p, e, s2⟩ := pr
    have hspec := assign_some_spec getEmpName t employees sched current_date p e s2 hstep
    simp only [hspec.2.2.1, hspec.2.2.2]
    omega
  | none =>
    simp
    omega

/-- Folding the scheduling step over a task list grows the combined
work-block and conflict count by exactly the number of tasks. -/
lemma foldl_scheduleStep_counts (getEmpName : String → String)
    (employees : List SchedEmployee) (current_date : ℤ) :
    ∀ (ts : List SchedTask) (sched : Schedule),
      ((ts.foldl (scheduleStep getEmpName employees current_date) sched).work_blocks.length
        + (ts.foldl (scheduleStep getEmpName employees current_date) sched).conflicts.length)
        = sched.work_blocks.length + sched.conflicts.length + ts.length := by
  intro ts
  induction ts with
  | nil =>
    intro sched
    simp
  | cons t rest ih =>
    intro sched
    simp only [List.foldl_cons, List.length_cons]
    rw [ih (scheduleStep getEmpName employees current_date sched t),
      scheduleStep_counts]
    omega

/-- The objective-dependent task sort preserves the task count. -/
lemma length_sortTasks (objective : String) (tasks : List SchedTask) :
    (sortTasks objective tasks).length = tasks.length := by
  unfold sortTasks
  split
  · exact List.length_insertionSort _ _
  split
  · exact List.length_insertionSort _ _
  · exact List.length_insertionSort _ _

/-- C2: every scheduled task yields exactly one work block or exactly one
conflict entry — a successful assignment appends one work block and leaves
the conflicts unchanged, an unassignable task is recorded as a conflict
rather than raising — so work blocks plus conflicts always count the
tasks. -/
theorem scheduler_task_accounting (getEmpName : String → String)
    (tasks : List SchedTask) (employees : List SchedEmployee) (objective : String)
    (current_date : ℤ) (t : SchedTask) (sched : Schedule) :
    ((build_greedy_schedule getEmpName tasks employees objective current_date).work_blocks.length
      + (build_greedy_schedule getEmpName tasks employees objective current_date).conflicts.length
      = tasks.length) ∧
    (match assign_task_to_employee getEmpName t employees sched current_date with
     | some (_, _, s2) =>
        s2.work_blocks.length = sched.work_blocks.length + 1 ∧ s2.conflicts = sched.conflicts
     | Option.none => True) := by
  constructor
  · unfold build_greedy_schedule
    rw [foldl_scheduleStep_counts, length_sortTasks]
    simp
  · cases h : assign_task_to_employee getEmpName t employees sched current_date with
    | some pr =>
      obtain ⟨p, e, s2⟩ := pr
      have hspec := assign_some_spec getEmpName t employees sched current_date p e s2 h
      exact ⟨hspec.2.2.1, hspec.2.2.2⟩
    | none => trivial

/-- The witness task A carries an 8-hour integer duration. -/
lemma taskDurationA : taskDuration schedTaskA = 8 := by
  simp only [taskDuration, schedTaskA, ite_self, pyTrunc]
  norm_num

/-- Concrete run of the recommended path on the witness scenario. -/
lemma assignA_eval :
    assign_task_to_employee (fun s => s) schedTaskA [schedEmpA] schedStateA 0
      = some (AssignPath.recommended, "EMP-A",
          applyAssign (fun s => s) schedTaskA "EMP-A" ⟨"Alice", [], 0, 0⟩
            (taskDuration schedTaskA) 80 "Recommended" 0 schedStateA) := by
  have hdget : dictGet schedStateA.employee_schedules "EMP-A" = some ⟨"Alice", [], 0, 0⟩ := rfl
  have htry : tryRecommended (fun s => s) schedTaskA (taskDuration schedTaskA) 0 schedStateA
      schedTaskA.assignee_recommendations
      = some ("EMP-A", applyAssign (fun s => s) schedTaskA "EMP-A" ⟨"Alice", [], 0, 0⟩
          (taskDuration schedTaskA) 80 "Recommended" 0 schedStateA) := by
    rw [show schedTaskA.assignee_recommendations = [⟨"EMP-A", 80, "Recommended"⟩] from rfl]
    rw [tryRecommended]
    simp only [hdget]
    rw [if_pos]
    rw [taskDurationA]
    norm_num
  unfold assign_task_to_employee
  simp only [htry]

/-- Concrete run of the fallback path on the witness scenario. -/
lemma assignB_eval :
    assign_task_to_employee (fun s => s) schedTaskB [schedEmpB] schedStateB 0
      = some (AssignPath.fallback, "EMP-B",
          applyAssign (fun s => s) schedTaskB "EMP-B" ⟨"Bob", [], 0, 50⟩
            (taskDuration schedTaskB) 60 "Assigned based on availability" 0 schedStateB) := by
  have htry : tryRecommended (fun s => s) schedTaskB (taskDuration schedTaskB) 0 schedStateB
      schedTaskB.assignee_recommendations = Option.none := by
    rw [show schedTaskB.assignee_recommendations = [] from rfl]
    rw [tryRecommended]
  have hdgB : dictGet schedStateB.employee_schedules "EMP-B" = some ⟨"Bob", [], 0, 50⟩ := rfl
  have hfilter : ([schedEmpB].filter (fun e =>
      match dictGet schedStateB.employee_schedules e.name with
      | some es => decide (es.utilization < 100)
      | Option.none => false)) = [schedEmpB] := by
    rw [List.filter_cons]
    have hname : dictGet schedStateB.employee_schedules schedEmpB.name
        = some ⟨"Bob", [], 0, 50⟩ := rfl
    simp only [hname, decide_eq_true_eq, List.filter_nil]
    rw [if_pos]
    norm_num
  have hsorted : ([schedEmpB].insertionSort
      (fun a b => schedUtil schedStateB a.name ≤ schedUtil schedStateB b.name))
      = [schedEmpB] := by
    simp [List.insertionSort, List.orderedInsert]
  unfold assign_task_to_employee
  simp only [htry, hfilter, hsorted]
  have hname : dictGet schedStateB.employee_schedules schedEmpB.name
      = some ⟨"Bob", [], 0, 50⟩ := rfl
  simp only [hname]
  rfl

/-- Witness for C1: the recommended path accepts an idle employee for an
8h task (projected utilization 20% ≤ 120%), and the fallback path picks an
employee at 50% < 100% utilization. -/
theorem scheduler_utilization_caps_witness :
    (∃ es, dictGet schedStateA.employee_schedules "EMP-A" = some es ∧
        es.utilization + (taskDuration schedTaskA : ℚ) / 40 * 100 ≤ 120) ∧
    (∃ es, dictGet schedStateB.employee_schedules "EMP-B" = some es ∧
        es.utilization < 100) :=
  ⟨(scheduler_utilization_caps (fun s => s) schedTaskA [schedEmpA] schedStateA 0
      AssignPath.recommended "EMP-A" _ assignA_eval).1 rfl,
   (scheduler_utilization_caps (fun s => s) schedTaskB [schedEmpB] schedStateB 0
      AssignPath.fallback "EMP-B" _ assignB_eval).2 rfl⟩
